import Mathlib

/-!
# Verification of the zhenxun_bot authorization core

A shallow embedding, in Lean 4, of the authorization / runtime-cache core of
the `zhenxun_bot` repository, together with theorems settling the frozen
claims about it.

Conventions used throughout:

* Wall-clock instants (`time.time()`, `time.monotonic()`) are modelled as
  exact rationals `ℚ`; Python float arithmetic on these values is plain
  comparison and addition, which is exact on the values involved.
* Python `int(x)` applied to a float is truncation toward zero, modelled by
  `pyTrunc`.
* Python `dict` objects are modelled as association lists with
  last-write-wins insertion (`mapInsert` / `mapLookup` / `mapErase`).
* `async` functions that the claims treat as atomic reads/writes (every cache
  method runs under the per-cache `asyncio.Lock`) are modelled as pure state
  transformers; fire-and-forget `asyncio.create_task` calls are modelled as
  explicit "scheduled effect" flags in the result.
-/

/-- Python `int(x)` on a real value: truncation toward zero. -/
def pyTrunc (q : ℚ) : ℤ :=
  if 0 ≤ q then ⌊q⌋ else -⌊-q⌋

/-- Python `str.strip()`: drop leading and trailing whitespace. -/
def pyStrip (s : String) : String :=
  ⟨((s.data.dropWhile Char.isWhitespace).reverse.dropWhile Char.isWhitespace).reverse⟩

/-- Does the character list start with the given pattern? -/
def listHasPre : List Char → List Char → Bool
  | _, [] => true
  | [], _ :: _ => false
  | c :: cs, p :: ps => c = p && listHasPre cs ps

/-- Does the character list contain the pattern as a contiguous run? -/
def listHasSub : List Char → List Char → Bool
  | [], pat => listHasPre [] pat
  | l@(_ :: t), pat => listHasPre l pat || listHasSub t pat

/-- Python `pat in hay` on strings: substring containment. -/
def strHasSub (hay pat : String) : Bool := listHasSub hay.data pat.data

/-- Lookup in an association-list model of a Python `dict`. -/
def mapLookup {κ α : Type} [DecidableEq κ] (m : List (κ × α)) (k : κ) : Option α :=
  match m with
  | [] => none
  | (k0, v) :: rest => if k0 = k then some v else mapLookup rest k

/-- `d[k] = v` on an association-list model of a Python `dict`
(last write wins). -/
def mapInsert {κ α : Type} [DecidableEq κ] (m : List (κ × α)) (k : κ) (v : α) :
    List (κ × α) :=
  (k, v) :: m.filter (fun kv => kv.1 ≠ k)

/-- `d.pop(k, None)` on an association-list model of a Python `dict`. -/
def mapErase {κ α : Type} [DecidableEq κ] (m : List (κ × α)) (k : κ) :
    List (κ × α) :=
  m.filter (fun kv => kv.1 ≠ k)

theorem mapLookup_insert {κ α : Type} [DecidableEq κ]
    (m : List (κ × α)) (k : κ) (v : α) :
    mapLookup (mapInsert m k v) k = some v := by
  simp [mapInsert, mapLookup]

theorem mapInsert_idem {κ α : Type} [DecidableEq κ]
    (m : List (κ × α)) (k : κ) (v : α) :
    mapInsert (mapInsert m k v) k v = mapInsert m k v := by
  simp [mapInsert, List.filter_filter]

theorem mapErase_idem {κ α : Type} [DecidableEq κ]
    (m : List (κ × α)) (k : κ) :
    mapErase (mapErase m k) k = mapErase m k := by
  simp [mapErase, List.filter_filter]

/-! ## Ban entries (`zhenxun/services/cache/runtime_cache.py`, `BanEntry`) -/

/-- `BanEntry` dataclass from `runtime_cache.py`: one cached ban record.
`user_id` / `group_id` are `None` or a non-empty string after
normalization; `duration = -1` denotes a permanent ban; `expire_at` is
`None` for permanent bans. -/
structure BanEntry where
  user_id : Option String
  group_id : Option String
  ban_level : ℤ
  ban_time : ℤ
  duration : ℤ
  expire_at : Option ℚ
  deriving DecidableEq

/-- `BanEntry.remaining(now)`: `-1` for permanent bans, otherwise the
truncated seconds left, clamped at `0`. -/
def BanEntry.remaining (e : BanEntry) (now : ℚ) : ℤ :=
  if e.duration = -1 then -1
  else
    let left := pyTrunc ((e.ban_time : ℚ) + (e.duration : ℚ) - now)
    if 0 < left then left else 0

/-- The replication payload of a ban record, as read by
`BanEntry.from_payload` (`payload.get(...)` with defaults). -/
structure BanPayload where
  user_id : Option String
  group_id : Option String
  ban_level : Option ℤ
  ban_time : Option ℤ
  duration : Option ℤ
  expire_at : Option ℚ
  deriving DecidableEq

/-- Python truthiness of an optional string (`None` and `""` are falsy). -/
def optStrTruthy : Option String → Bool
  | none => false
  | some s => s ≠ ""

/-- `str(x) if x else None` on an optional string field. -/
def strOrNone (v : Option String) : Option String :=
  if optStrTruthy v then v else none

/-- `BanEntry.from_payload`: field extraction with the source defaults
(`int(payload.get(k, 0) or 0)`), recomputing `expire_at` for
non-permanent bans when absent. -/
def BanEntry.from_payload (p : BanPayload) : BanEntry :=
  let ban_time := p.ban_time.getD 0
  let duration := p.duration.getD 0
  let expire_at :=
    match p.expire_at with
    | some q => some q
    | none => if duration ≠ -1 then some ((ban_time : ℚ) + (duration : ℚ)) else none
  { user_id := strOrNone p.user_id
    group_id := strOrNone p.group_id
    ban_level := p.ban_level.getD 0
    ban_time := ban_time
    duration := duration
    expire_at := expire_at }

/-! ## `BanMemoryCache` state and lookups -/

/-- The mutable class state of `BanMemoryCache`: the three snapshot indexes,
the negative-entry map and the load flag. -/
structure BanCacheState where
  by_user : List (String × BanEntry)
  by_group : List (String × BanEntry)
  by_user_group : List ((String × String) × BanEntry)
  negative : List ((Option String × Option String) × ℚ)
  loaded : Bool
  deriving DecidableEq

/-- `BanMemoryCache._normalize_id`: strip whitespace; empty becomes `None`. -/
def normalizeId (v : Option String) : Option String :=
  match v with
  | none => none
  | some s =>
    let t := pyStrip s
    if t = "" then none else some t

/-- `BanMemoryCache._neg_key`. -/
def banNegKey (user_id group_id : Option String) : Option String × Option String :=
  (normalizeId user_id, normalizeId group_id)

/-- `BanMemoryCache._is_negative` as a pure read at instant `now`
(an entry counts only while its expiry lies strictly in the future). -/
def banIsNegative (s : BanCacheState) (key : Option String × Option String)
    (now : ℚ) : Bool :=
  match mapLookup s.negative key with
  | none => false
  | some expire_at => ¬(expire_at ≤ now)

/-- `BanMemoryCache._get_entry`: the two-level lookup.  With both ids
present it consults the `(user, group)` index first, then falls back to
the user-only index, and never to the group-only index; with a single id
it consults the matching single-id index. -/
def banGetEntry (s : BanCacheState) (user_id group_id : Option String) :
    Option BanEntry :=
  match normalizeId user_id, normalizeId group_id with
  | some u, some g =>
    match mapLookup s.by_user_group (u, g) with
    | some e => some e
    | none => mapLookup s.by_user u
  | some u, none => mapLookup s.by_user u
  | none, some g => mapLookup s.by_group g
  | none, none => none

/-- Result of one `is_banned` / `remaining_time` read: the returned value and
whether the call scheduled (fire-and-forget) an asynchronous removal of the
expired record. -/
structure BanReadResult (α : Type) where
  result : α
  removalScheduled : Bool
  deriving DecidableEq

/-- `BanMemoryCache.is_banned`. -/
def banIsBanned (s : BanCacheState) (user_id group_id : Option String)
    (now : ℚ) : BanReadResult Bool :=
  if ¬s.loaded then ⟨false, false⟩
  else if banIsNegative s (banNegKey user_id group_id) now then ⟨false, false⟩
  else
    match banGetEntry s user_id group_id with
    | none => ⟨false, false⟩
    | some e =>
      if e.remaining now = 0 ∧ e.duration ≠ -1 then ⟨false, true⟩
      else ⟨true, false⟩

/-- `BanMemoryCache.remaining_time`. -/
def banRemainingTime (s : BanCacheState) (user_id group_id : Option String)
    (now : ℚ) : BanReadResult ℤ :=
  if ¬s.loaded then ⟨0, false⟩
  else if banIsNegative s (banNegKey user_id group_id) now then ⟨0, false⟩
  else
    match banGetEntry s user_id group_id with
    | none => ⟨0, false⟩
    | some e =>
      if e.remaining now = 0 ∧ e.duration ≠ -1 then ⟨0, true⟩
      else ⟨e.remaining now, false⟩

/-- `is_ban` from `hooks/auth/auth_ban.py`: `0` when both ids are falsy or
the cache is not loaded, otherwise `BanMemoryCache.remaining_time`. -/
def is_ban (s : BanCacheState) (user_id group_id : Option String) (now : ℚ) : ℤ :=
  if ¬optStrTruthy user_id ∧ ¬optStrTruthy group_id then 0
  else if ¬s.loaded then 0
  else (banRemainingTime s user_id group_id now).result

/-! ## Asynchronous removal of expired ban records -/

/-- The effect of one `BanMemoryCache.remove(user_id, group_id)` call: the
new cache state, whether a replication `delete` event was published, and
whether any durable-storage (database) deletion was performed.  The source
of `remove` is `_remove_local` followed by
`RuntimeCacheSync.publish_event("ban", "delete", ...)`; its body contains
no database call. -/
structure BanRemoveEffect where
  state : BanCacheState
  publishedDelete : Bool
  dbDeleted : Bool
  deriving DecidableEq

/-- `BanMemoryCache._remove_local`. -/
def banRemoveLocal (s : BanCacheState) (user_id group_id : Option String) :
    BanCacheState :=
  match normalizeId user_id, normalizeId group_id with
  | some u, some g =>
    { s with by_user_group := mapErase s.by_user_group (u, g), negative := [] }
  | some u, none =>
    { s with by_user := mapErase s.by_user u, negative := [] }
  | none, some g =>
    { s with by_group := mapErase s.by_group g, negative := [] }
  | none, none => { s with negative := [] }

/-- `BanMemoryCache.remove`: local removal plus a replication `delete`
broadcast; no durable-storage deletion happens in this function. -/
def banRemove (s : BanCacheState) (user_id group_id : Option String) :
    BanRemoveEffect :=
  { state := banRemoveLocal s user_id group_id
    publishedDelete := true
    dbDeleted := false }

/-- The fire-and-forget task scheduled by an `is_banned` /
`remaining_time` read that sees an expired record `e`:
`asyncio.create_task(cls.remove(entry.user_id, entry.group_id))`. -/
def banScheduledRemoval (e : BanEntry) (s : BanCacheState) : BanRemoveEffect :=
  banRemove s e.user_id e.group_id

/-- After `_remove_local`, the index slot corresponding to the entry's own
(normalized) ids no longer holds any record. -/
def entryRemovedFrom (s : BanCacheState) (e : BanEntry) : Prop :=
  match normalizeId e.user_id, normalizeId e.group_id with
  | some u, some g => mapLookup s.by_user_group (u, g) = none
  | some u, none => mapLookup s.by_user u = none
  | none, some g => mapLookup s.by_group g = none
  | none, none => True

theorem mapLookup_erase {κ α : Type} [DecidableEq κ]
    (m : List (κ × α)) (k : κ) : mapLookup (mapErase m k) k = none := by
  induction m with
  | nil => rfl
  | cons kv rest ih =>
    by_cases h : kv.1 = k
    · simpa [mapErase, h] using ih
    · simpa [mapErase, mapLookup, h] using ih

/-! ## The ban stage (`hooks/auth/auth_ban.py`) -/

/-- Result of one `user_handle` call: whether the templated ban-reply
message was sent to the target, and whether the stage raised
`SkipPluginException` (denying the event). -/
structure UserHandleResult where
  sent : Bool
  raised : Bool
  deriving DecidableEq

/-- `user_handle` from `auth_ban.py`.  `pluginPresent` is the truthiness of
the `plugin` argument, `banResult` the configured `hook.BAN_RESULT` text,
and `freqOk` the verdict of `freq.is_send_limit_message` (whose source
lives outside the embedded corpus and is treated as an arbitrary input;
the claims hold for every value of it). -/
def user_handle (pluginPresent : Bool) (banResult : String) (freqOk : Bool)
    (s : BanCacheState) (user_id : String) (group_id : Option String)
    (now : ℚ) : UserHandleResult :=
  let time_val := is_ban s (some user_id) group_id now
  if time_val = 0 then ⟨false, false⟩
  else ⟨pluginPresent && time_val ≠ -1 && banResult ≠ "" && freqOk, true⟩

/-! ## Supporting lemmas about ban reads -/

theorem pyTrunc_nonpos_of_neg {q : ℚ} (h : q < 0) : pyTrunc q ≤ 0 := by
  unfold pyTrunc
  rw [if_neg (by exact not_le.mpr h)]
  have : (0 : ℤ) ≤ ⌊-q⌋ := Int.floor_nonneg.mpr (by linarith)
  omega

/-- A non-permanent record whose deadline has passed reports `remaining = 0`. -/
theorem remaining_eq_zero_of_past (e : BanEntry) (now : ℚ)
    (hd : e.duration ≠ -1)
    (h : (e.ban_time : ℚ) + (e.duration : ℚ) < now) : e.remaining now = 0 := by
  unfold BanEntry.remaining
  rw [if_neg hd]
  have hneg : (e.ban_time : ℚ) + (e.duration : ℚ) - now < 0 := by linarith
  have := pyTrunc_nonpos_of_neg hneg
  simp only []
  omega

theorem banRemainingTime_congr (s1 s2 : BanCacheState)
    (u g : Option String) (now : ℚ)
    (h1 : s1.loaded = s2.loaded)
    (h2 : banIsNegative s1 (banNegKey u g) now
            = banIsNegative s2 (banNegKey u g) now)
    (h3 : banGetEntry s1 u g = banGetEntry s2 u g) :
    banRemainingTime s1 u g now = banRemainingTime s2 u g now := by
  unfold banRemainingTime
  rw [h1, h2, h3]

theorem banIsBanned_congr (s1 s2 : BanCacheState)
    (u g : Option String) (now : ℚ)
    (h1 : s1.loaded = s2.loaded)
    (h2 : banIsNegative s1 (banNegKey u g) now
            = banIsNegative s2 (banNegKey u g) now)
    (h3 : banGetEntry s1 u g = banGetEntry s2 u g) :
    banIsBanned s1 u g now = banIsBanned s2 u g now := by
  unfold banIsBanned
  rw [h1, h2, h3]

/-- C1: with both a user-only record for `u` and an exact `(u, g)` record in
the cache, `remaining_time(u, g)` and `is_banned(u, g)` are determined by
the exact record alone: `_get_entry` returns the `(user, group)`-indexed
record, the values returned are functions of that record only, and the
results are unchanged under arbitrary replacement of the user-only and
group-only indexes. -/
theorem exact_ban_record_takes_precedence
    (s : BanCacheState) (u g u0 g0 : String) (e : BanEntry) (now : ℚ)
    (hu : normalizeId (some u) = some u0)
    (hg : normalizeId (some g) = some g0)
    (he : mapLookup s.by_user_group (u0, g0) = some e)
    (hl : s.loaded = true)
    (hn : banIsNegative s (banNegKey (some u) (some g)) now = false) :
    banGetEntry s (some u) (some g) = some e
    ∧ (banRemainingTime s (some u) (some g) now).result = e.remaining now
    ∧ ((banIsBanned s (some u) (some g) now).result = true ↔ e.remaining now ≠ 0)
    ∧ (∀ bu bg,
        banRemainingTime { s with by_user := bu, by_group := bg }
            (some u) (some g) now
          = banRemainingTime s (some u) (some g) now
        ∧ banIsBanned { s with by_user := bu, by_group := bg }
            (some u) (some g) now
          = banIsBanned s (some u) (some g) now) := by
  have hGet : banGetEntry s (some u) (some g) = some e := by
    simp [banGetEntry, hu, hg, he]
  refine ⟨hGet, ?_, ?_, ?_⟩
  · by_cases hexp : e.remaining now = 0 ∧ e.duration ≠ -1
    · simp [banRemainingTime, hl, hn, hGet, hexp, hexp.1]
    · simp [banRemainingTime, hl, hn, hGet, hexp]
  · by_cases hexp : e.remaining now = 0 ∧ e.duration ≠ -1
    · simp [banIsBanned, hl, hn, hGet, hexp, hexp.1]
    · simp [banIsBanned, hl, hn, hGet, hexp]
      intro hzero
      have hd : e.duration = -1 := by tauto
      rw [BanEntry.remaining, if_pos hd] at hzero
      norm_num at hzero
  · intro bu bg
    have hGet2 : banGetEntry { s with by_user := bu, by_group := bg }
        (some u) (some g) = some e := by
      simp [banGetEntry, hu, hg, he]
    constructor
    · exact banRemainingTime_congr _ _ _ _ _ rfl rfl (hGet2.trans hGet.symm)
    · exact banIsBanned_congr _ _ _ _ _ rfl rfl (hGet2.trans hGet.symm)

def c1entryExact : BanEntry :=
  { user_id := some "u1", group_id := some "g1", ban_level := 5,
    ban_time := 0, duration := 100, expire_at := some 100 }

def c1entryUser : BanEntry :=
  { user_id := some "u1", group_id := none, ban_level := 5,
    ban_time := 0, duration := -1, expire_at := none }

def c1state : BanCacheState :=
  { by_user := [("u1", c1entryUser)], by_group := [],
    by_user_group := [(("u1", "g1"), c1entryExact)], negative := [],
    loaded := true }

theorem exact_ban_record_takes_precedence_witness :
    (banRemainingTime c1state (some "u1") (some "g1") 10).result
      = c1entryExact.remaining 10
    ∧ c1entryExact.remaining 10 = 90 :=
  ⟨(exact_ban_record_takes_precedence c1state "u1" "g1" "u1" "g1"
      c1entryExact 10 (by decide) (by decide) (by decide) rfl (by decide)).2.1,
   by norm_num [c1entryExact, BanEntry.remaining, pyTrunc]⟩

/-- C9: with only a group-only record for `g` loaded (no `(u, g)` record and
no user-only record for `u`), `is_banned(u, g)` returns false and
`remaining_time(u, g)` returns 0 — the user-keyed query never falls back
to the group-only index — while a query with the user id absent (as issued
by the fast precheck `auth_ban_fast` via `is_ban(None, group_id)`) does
reach the group-only record. -/
theorem group_only_ban_invisible_to_user_query
    (s : BanCacheState) (u g u0 g0 : String) (e : BanEntry) (now : ℚ)
    (hu : normalizeId (some u) = some u0)
    (hg : normalizeId (some g) = some g0)
    (hug : mapLookup s.by_user_group (u0, g0) = none)
    (huser : mapLookup s.by_user u0 = none)
    (hgrp : mapLookup s.by_group g0 = some e)
    (hl : s.loaded = true) :
    (banIsBanned s (some u) (some g) now).result = false
    ∧ (banRemainingTime s (some u) (some g) now).result = 0
    ∧ is_ban s (some u) (some g) now = 0
    ∧ banGetEntry s none (some g) = some e := by
  have hGet : banGetEntry s (some u) (some g) = none := by
    simp [banGetEntry, hu, hg, hug, huser]
  have hRem : (banRemainingTime s (some u) (some g) now).result = 0 := by
    by_cases hneg : banIsNegative s (banNegKey (some u) (some g)) now
    · simp [banRemainingTime, hl, hneg]
    · simp [banRemainingTime, hl, hneg, hGet]
  refine ⟨?_, hRem, ?_, ?_⟩
  · by_cases hneg : banIsNegative s (banNegKey (some u) (some g)) now
    · simp [banIsBanned, hl, hneg]
    · simp [banIsBanned, hl, hneg, hGet]
  · unfold is_ban
    by_cases hfalsy : ¬optStrTruthy (some u) ∧ ¬optStrTruthy (some g)
    · rw [if_pos hfalsy]
    · rw [if_neg hfalsy, if_neg (by simp [hl])]
      exact hRem
  · have hnone : normalizeId none = none := rfl
    simp [banGetEntry, hnone, hg, hgrp]

def c9entryGroup : BanEntry :=
  { user_id := none, group_id := some "g9", ban_level := 5,
    ban_time := 0, duration := -1, expire_at := none }

def c9state : BanCacheState :=
  { by_user := [], by_group := [("g9", c9entryGroup)], by_user_group := [],
    negative := [], loaded := true }

theorem group_only_ban_invisible_to_user_query_witness :
    (banIsBanned c9state (some "u9") (some "g9") 3).result = false
    ∧ banGetEntry c9state none (some "g9") = some c9entryGroup :=
  ⟨(group_only_ban_invisible_to_user_query c9state "u9" "g9" "u9" "g9"
      c9entryGroup 3 (by decide) (by decide) (by decide) (by decide)
      (by decide) rfl).1,
   (group_only_ban_invisible_to_user_query c9state "u9" "g9" "u9" "g9"
      c9entryGroup 3 (by decide) (by decide) (by decide) (by decide)
      (by decide) rfl).2.2.2⟩

def c2entry : BanEntry :=
  { user_id := some "u2", group_id := none, ban_level := 5,
    ban_time := 0, duration := 5, expire_at := some 5 }

def c2state : BanCacheState :=
  { by_user := [("u2", c2entry)], by_group := [], by_user_group := [],
    negative := [], loaded := true }

/-- C2 counterexample: at `now = 10` (past `ban_time + duration = 5`) the
`is_banned` read on the loaded record returns false and schedules the
asynchronous removal, but the scheduled task — `BanMemoryCache.remove` —
performs no durable-storage deletion (it only removes the cache entry and
publishes a replication `delete` event), refuting the part of the claim
that says removal from durable storage is scheduled by that read. -/
theorem ban_expiry_read_schedules_no_db_delete :
    banIsBanned c2state (some "u2") none 10
      = { result := false, removalScheduled := true }
    ∧ (banScheduledRemoval c2entry c2state).publishedDelete = true
    ∧ (banScheduledRemoval c2entry c2state).dbDeleted = false := by
  refine ⟨?_, rfl, rfl⟩
  have hGet : banGetEntry c2state (some "u2") none = some c2entry := by decide
  have hrem : c2entry.remaining 10 = 0 := by
    norm_num [c2entry, BanEntry.remaining, pyTrunc]
  have hdur : c2entry.duration ≠ -1 := by decide
  have hload : c2state.loaded = true := rfl
  have hneg : banIsNegative c2state (banNegKey (some "u2") none) 10 = false := by
    decide
  simp [banIsBanned, hload, hneg, hGet, hrem, hdur]

/-- C2 (amended): once the current time is past `ban_time + duration` for a
loaded non-permanent record, that very `is_banned` (and `remaining_time`)
call returns false (resp. 0) and schedules, fire-and-forget, the record's
removal from the in-memory cache together with a replication `delete`
broadcast; the scheduled removal does not itself delete from durable
storage, and it clears the record's own index slot. -/
theorem ban_expiry_lazy_read
    (s : BanCacheState) (u g : Option String) (e : BanEntry) (now : ℚ)
    (hl : s.loaded = true)
    (hn : banIsNegative s (banNegKey u g) now = false)
    (he : banGetEntry s u g = some e)
    (hd : e.duration ≠ -1)
    (hexp : (e.ban_time : ℚ) + (e.duration : ℚ) < now) :
    banIsBanned s u g now = { result := false, removalScheduled := true }
    ∧ banRemainingTime s u g now = { result := 0, removalScheduled := true }
    ∧ (banScheduledRemoval e s).publishedDelete = true
    ∧ (banScheduledRemoval e s).dbDeleted = false
    ∧ entryRemovedFrom (banScheduledRemoval e s).state e := by
  have hrem : e.remaining now = 0 := remaining_eq_zero_of_past e now hd hexp
  refine ⟨?_, ?_, rfl, rfl, ?_⟩
  · simp [banIsBanned, hl, hn, he, hrem, hd]
  · simp [banRemainingTime, hl, hn, he, hrem, hd]
  · cases hu : normalizeId e.user_id <;> cases hg : normalizeId e.group_id <;>
      simp [entryRemovedFrom, banScheduledRemoval, banRemove, banRemoveLocal,
        hu, hg, mapLookup_erase]

theorem ban_expiry_lazy_read_witness :
    banIsBanned c2state (some "u2") none 10
      = { result := false, removalScheduled := true }
    ∧ (banScheduledRemoval c2entry c2state).dbDeleted = false :=
  ⟨(ban_expiry_lazy_read c2state (some "u2") none c2entry 10 rfl (by decide)
      (by decide) (by decide) (by norm_num [c2entry])).1,
   (ban_expiry_lazy_read c2state (some "u2") none c2entry 10 rfl (by decide)
      (by decide) (by decide) (by norm_num [c2entry])).2.2.2.1⟩

/-- C3: `remaining()` returns `-1` exactly when `duration == -1` (a
permanent ban keeps `remaining = -1` at every instant), and whenever the
ban stage sees a permanent ban (`is_ban` returning `-1`), `user_handle`
raises the deny without sending the templated ban-reply message, for every
value of the configured result text and of the per-target send limiter. -/
theorem permanent_ban_remaining_and_no_reply :
    (∀ (e : BanEntry) (now : ℚ), e.remaining now = -1 ↔ e.duration = -1)
    ∧ (∀ (pluginPresent : Bool) (banResult : String) (freqOk : Bool)
        (s : BanCacheState) (user_id : String) (group_id : Option String)
        (now : ℚ), is_ban s (some user_id) group_id now = -1 →
        (user_handle pluginPresent banResult freqOk s user_id group_id
            now).sent = false
        ∧ (user_handle pluginPresent banResult freqOk s user_id group_id
            now).raised = true) := by
  constructor
  · intro e now
    constructor
    · intro h
      by_contra hd
      rw [BanEntry.remaining, if_neg hd] at h
      by_cases hpos : 0 < pyTrunc ((e.ban_time : ℚ) + (e.duration : ℚ) - now)
      · rw [if_pos hpos] at h
        omega
      · rw [if_neg hpos] at h
        omega
    · intro h
      rw [BanEntry.remaining, if_pos h]
  · intro pluginPresent banResult freqOk s user_id group_id now hban
    unfold user_handle
    rw [hban]
    norm_num

def c3entry : BanEntry :=
  { user_id := some "u3", group_id := none, ban_level := 5,
    ban_time := 0, duration := -1, expire_at := none }

def c3state : BanCacheState :=
  { by_user := [("u3", c3entry)], by_group := [], by_user_group := [],
    negative := [], loaded := true }

theorem permanent_ban_remaining_and_no_reply_witness :
    (c3entry.remaining 12345 = -1 ↔ c3entry.duration = -1)
    ∧ (user_handle true "ban text" true c3state "u3" none 12345).sent
        = false :=
  ⟨permanent_ban_remaining_and_no_reply.1 c3entry 12345,
   (permanent_ban_remaining_and_no_reply.2 true "ban text" true c3state "u3"
      none 12345 (by decide)).1⟩

/-! ## Replication payload upserts for the other entity caches -/

/-- `BanMemoryCache.upsert_from_payload`: index the rebuilt entry under the
`(user, group)`, user-only or group-only map according to which ids are
truthy, and clear the whole negative cache. -/
def banUpsertFromPayload (s : BanCacheState) (p : BanPayload) : BanCacheState :=
  let e := BanEntry.from_payload p
  match e.user_id, e.group_id with
  | some u, some g =>
    { s with by_user_group := mapInsert s.by_user_group (u, g) e, negative := [] }
  | some u, none => { s with by_user := mapInsert s.by_user u e, negative := [] }
  | none, some g => { s with by_group := mapInsert s.by_group g e, negative := [] }
  | none, none => { s with negative := [] }

/-- Split a character list at every occurrence of the separator
(Python `str.split(sep)` semantics). -/
def splitCharList (sep : Char) : List Char → List (List Char)
  | [] => [[]]
  | c :: cs =>
    let r := splitCharList sep cs
    if c = sep then [] :: r
    else
      match r with
      | [] => [[c]]
      | h :: t => (c :: h) :: t

/-- Python `str.strip(",")`: drop leading and trailing commas. -/
def pyStripComma (s : String) : String :=
  ⟨((s.data.dropWhile (fun c => c = ',')).reverse.dropWhile
      (fun c => c = ',')).reverse⟩

/-- `_parse_block_modules` from `runtime_cache.py`: split the delimited
string on `<`, strip whitespace and commas, keep the non-empty module
names.  The resulting `frozenset` is modelled as the list of its members
in encounter order (only membership is ever consulted). -/
def parseBlockModules (value : String) : List String :=
  if value = "" then []
  else
    ((splitCharList '<' value.data).map
        (fun part => pyStripComma (pyStrip ⟨part⟩) |> pyStrip)).filter
      (fun part => part ≠ "")

/-- `GroupSnapshot` from `runtime_cache.py` (block sets derived once from
the delimited strings). -/
structure GroupSnap where
  group_id : String
  channel_id : Option String
  group_name : String
  max_member_count : ℤ
  member_count : ℤ
  status : Bool
  level : ℤ
  is_super : Bool
  group_flag : ℤ
  block_plugin : String
  superuser_block_plugin : String
  block_task : String
  superuser_block_task : String
  platform : Option String
  block_plugin_set : List String
  superuser_block_plugin_set : List String
  block_task_set : List String
  superuser_block_task_set : List String
  deriving DecidableEq

/-- The replication payload of a group snapshot, as read by
`GroupSnapshot.from_payload`. -/
structure GroupPayload where
  group_id : Option String
  channel_id : Option String
  group_name : Option String
  max_member_count : Option ℤ
  member_count : Option ℤ
  status : Option Bool
  level : Option ℤ
  is_super : Option Bool
  group_flag : Option ℤ
  block_plugin : Option String
  superuser_block_plugin : Option String
  block_task : Option String
  superuser_block_task : Option String
  platform : Option String
  deriving DecidableEq

/-- `payload.get(k, "") or ""` on an optional string field. -/
def strFieldD (v : Option String) : String :=
  match v with
  | none => ""
  | some s => s

/-- `GroupSnapshot.from_payload`. -/
def GroupSnap.from_payload (p : GroupPayload) : GroupSnap :=
  let block_plugin := strFieldD p.block_plugin
  let superuser_block_plugin := strFieldD p.superuser_block_plugin
  let block_task := strFieldD p.block_task
  let superuser_block_task := strFieldD p.superuser_block_task
  { group_id := (p.group_id).getD ""
    channel_id := p.channel_id
    group_name := strFieldD p.group_name
    max_member_count := (p.max_member_count).getD 0
    member_count := (p.member_count).getD 0
    status := (p.status).getD true
    level := (p.level).getD 0
    is_super := (p.is_super).getD false
    group_flag := (p.group_flag).getD 0
    block_plugin := block_plugin
    superuser_block_plugin := superuser_block_plugin
    block_task := block_task
    superuser_block_task := superuser_block_task
    platform := p.platform
    block_plugin_set := parseBlockModules block_plugin
    superuser_block_plugin_set := parseBlockModules superuser_block_plugin
    block_task_set := parseBlockModules block_task
    superuser_block_task_set := parseBlockModules superuser_block_task }

/-- `GroupMemoryCache._key`: normalized `(group_id, channel_id or "")`, or
`None` when the group id is blank. -/
def groupKey (gid : String) (cid : Option String) : Option (String × String) :=
  match normalizeId (some gid) with
  | none => none
  | some g => some (g, (normalizeId cid).getD "")

/-- The mutable class state of `GroupMemoryCache`. -/
structure GroupCacheState where
  by_key : List ((String × String) × GroupSnap)
  negative : List ((String × String) × ℚ)
  loaded : Bool
  deriving DecidableEq

/-- `GroupMemoryCache.upsert_from_payload`. -/
def groupUpsertFromPayload (s : GroupCacheState) (p : GroupPayload) :
    GroupCacheState :=
  let e := GroupSnap.from_payload p
  match groupKey e.group_id e.channel_id with
  | none => s
  | some key =>
    { s with by_key := mapInsert s.by_key key e,
             negative := mapErase s.negative key }

/-- `BotSnapshot` from `runtime_cache.py`. -/
structure BotSnap where
  bot_id : String
  status : Bool
  platform : Option String
  block_plugins : String
  block_tasks : String
  available_plugins : String
  available_tasks : String
  deriving DecidableEq

/-- The replication payload of a bot snapshot, as read by
`BotSnapshot.from_payload`. -/
structure BotPayload where
  bot_id : Option String
  status : Option Bool
  platform : Option String
  block_plugins : Option String
  block_tasks : Option String
  available_plugins : Option String
  available_tasks : Option String
  deriving DecidableEq

/-- `BotSnapshot.from_payload`. -/
def BotSnap.from_payload (p : BotPayload) : BotSnap :=
  { bot_id := (p.bot_id).getD ""
    status := (p.status).getD true
    platform := p.platform
    block_plugins := strFieldD p.block_plugins
    block_tasks := strFieldD p.block_tasks
    available_plugins := strFieldD p.available_plugins
    available_tasks := strFieldD p.available_tasks }

/-- The mutable class state of `BotMemoryCache`. -/
structure BotCacheState where
  by_id : List (String × BotSnap)
  negative : List (String × ℚ)
  loaded : Bool
  deriving DecidableEq

/-- `BotMemoryCache.upsert_from_payload`. -/
def botUpsertFromPayload (s : BotCacheState) (p : BotPayload) : BotCacheState :=
  let e := BotSnap.from_payload p
  if e.bot_id = "" then s
  else
    { s with by_id := mapInsert s.by_id e.bot_id e,
             negative := mapErase s.negative e.bot_id }

/-- `LevelUserSnapshot` from `runtime_cache.py`. -/
structure LevelSnap where
  user_id : String
  group_id : Option String
  user_level : ℤ
  group_flag : ℤ
  deriving DecidableEq

/-- The replication payload of an admin-level snapshot. -/
structure LevelPayload where
  user_id : Option String
  group_id : Option String
  user_level : Option ℤ
  group_flag : Option ℤ
  deriving DecidableEq

/-- `LevelUserSnapshot.from_payload`. -/
def LevelSnap.from_payload (p : LevelPayload) : LevelSnap :=
  { user_id := (p.user_id).getD ""
    group_id := p.group_id
    user_level := (p.user_level).getD 0
    group_flag := (p.group_flag).getD 0 }

/-- `LevelUserMemoryCache._normalize`: strip whitespace, keeping `""`. -/
def levelNorm : Option String → Option String
  | none => none
  | some s => some (pyStrip s)

/-- `LevelUserMemoryCache._key`: `None` when the user id is blank; the
group component defaults to `""`. -/
def levelKey (uid gid : Option String) : Option (String × String) :=
  match levelNorm uid with
  | none => none
  | some u => if u = "" then none else some (u, (levelNorm gid).getD "")

/-- The mutable class state of `LevelUserMemoryCache`. -/
structure LevelCacheState where
  by_key : List ((String × String) × LevelSnap)
  negative : List ((String × String) × ℚ)
  loaded : Bool
  deriving DecidableEq

/-- `LevelUserMemoryCache.upsert_from_payload`. -/
def levelUpsertFromPayload (s : LevelCacheState) (p : LevelPayload) :
    LevelCacheState :=
  let e := LevelSnap.from_payload p
  match levelKey (some e.user_id) e.group_id with
  | none => s
  | some key =>
    { s with by_key := mapInsert s.by_key key e,
             negative := mapErase s.negative key }

/-! ## Plugin-limit snapshots and cache -/

/-- Modelled from the spec: rate-limit rule kinds
(COOLDOWN / BLOCK / COUNT); the defining file `zhenxun/utils/enum.py` is
not part of the embedded corpus. -/
inductive PluginLimitKind
  | CD
  | BLOCK
  | COUNT
  deriving DecidableEq

/-- Modelled from the spec: the watch scope of a rate-limit rule
(USER / GROUP, plus the constant `ALL` member used by the source's
boolean-or); the defining file `zhenxun/utils/enum.py` is not part of the
embedded corpus. -/
inductive LimitWatch
  | USER
  | GROUP
  | ALL
  deriving DecidableEq

/-- Modelled from the spec: Python truthiness of a `LimitWatchType`
member.  The spec states that the constant enum member used in the
source's boolean-or is always truthy (enum members have no `__bool__`
override). -/
def LimitWatch.pyTruthy : LimitWatch → Bool := fun _ => true

/-- Modelled from the spec: the check-type member of a rate-limit rule
(only `ALL` is referenced by the embedded sources). -/
inductive LimitCheck
  | ALL
  | PRIVATE
  | GROUP
  deriving DecidableEq

/-- `PluginLimitSnapshot` from `runtime_cache.py`. -/
structure LimitSnap where
  id : ℤ
  module : String
  module_path : String
  limit_type : PluginLimitKind
  watch_type : LimitWatch
  check_type : LimitCheck
  status : Bool
  result : Option String
  cd : Option ℤ
  max_count : Option ℤ
  deriving DecidableEq

/-- The replication payload of a plugin-limit snapshot (enum members are
carried as already-validated values; a payload whose enum fields fail to
convert is dropped by `upsert_from_payload` before reaching
`_upsert_entry`). -/
structure LimitPayload where
  id : Option ℤ
  module : Option String
  module_path : Option String
  limit_type : Option PluginLimitKind
  watch_type : Option LimitWatch
  check_type : Option LimitCheck
  status : Option Bool
  result : Option String
  cd : Option ℤ
  max_count : Option ℤ
  deriving DecidableEq

/-- `PluginLimitSnapshot.from_payload`. -/
def LimitSnap.from_payload (p : LimitPayload) : LimitSnap :=
  { id := (p.id).getD 0
    module := strFieldD p.module
    module_path := strFieldD p.module_path
    limit_type := (p.limit_type).getD PluginLimitKind.CD
    watch_type := (p.watch_type).getD LimitWatch.USER
    check_type := (p.check_type).getD LimitCheck.ALL
    status := (p.status).getD true
    result := p.result
    cd := p.cd
    max_count := p.max_count }

/-- The mutable class state of `PluginLimitMemoryCache`. -/
structure LimitCacheState where
  by_id : List (ℤ × LimitSnap)
  by_module : List (String × List LimitSnap)
  negative : List (String × ℚ)
  loaded : Bool
  deriving DecidableEq

/-- `PluginLimitMemoryCache._upsert_entry`. -/
def limitUpsertEntry (s : LimitCacheState) (e : LimitSnap) : LimitCacheState :=
  let prev := mapLookup s.by_id e.id
  let s1 :=
    match prev with
    | some p =>
      if p.module ≠ e.module then
        let cleaned := ((mapLookup s.by_module p.module).getD []).filter
          (fun (item : LimitSnap) => item.id ≠ p.id)
        { s with by_module := mapInsert s.by_module p.module cleaned }
      else s
    | none => s
  if ¬e.status then
    let cleaned := ((mapLookup s1.by_module e.module).getD []).filter
      (fun (item : LimitSnap) => item.id ≠ e.id)
    { s1 with
        by_id := mapErase s1.by_id e.id,
        by_module := mapInsert s1.by_module e.module cleaned }
  else
    let module_limits := (((mapLookup s1.by_module e.module).getD []).filter
      (fun (item : LimitSnap) => item.id ≠ e.id)) ++ [e]
    { s1 with
        by_id := mapInsert s1.by_id e.id e,
        by_module := mapInsert s1.by_module e.module module_limits,
        negative := mapErase s1.negative e.module }

/-- `PluginLimitMemoryCache.upsert_from_payload`. -/
def limitUpsertFromPayload (s : LimitCacheState) (p : LimitPayload) :
    LimitCacheState :=
  limitUpsertEntry s (LimitSnap.from_payload p)

theorem filter_append_single_self {α : Type} (p : α → Bool) (l : List α)
    (a : α) (ha : p a = false) :
    (l.filter p ++ [a]).filter p = l.filter p := by
  simp [List.filter_append, ha, List.filter_filter]

theorem limitUpsertEntry_idem (s : LimitCacheState) (e : LimitSnap) :
    limitUpsertEntry (limitUpsertEntry s e) e = limitUpsertEntry s e := by
  by_cases hst : e.status <;>
    simp [limitUpsertEntry, hst, mapLookup_insert, mapLookup_erase,
      mapInsert_idem, mapErase_idem, List.filter_append, List.filter_filter]

/-- C7: for every replication upsert payload and every cache state, applying
the payload-based upsert twice yields the same cache state as applying it
once, for each entity-kind cache (ban, group, bot, admin-level,
plugin-limit). -/
theorem replication_upsert_idempotent :
    (∀ (s : BanCacheState) (p : BanPayload),
        banUpsertFromPayload (banUpsertFromPayload s p) p
          = banUpsertFromPayload s p)
    ∧ (∀ (s : GroupCacheState) (p : GroupPayload),
        groupUpsertFromPayload (groupUpsertFromPayload s p) p
          = groupUpsertFromPayload s p)
    ∧ (∀ (s : BotCacheState) (p : BotPayload),
        botUpsertFromPayload (botUpsertFromPayload s p) p
          = botUpsertFromPayload s p)
    ∧ (∀ (s : LevelCacheState) (p : LevelPayload),
        levelUpsertFromPayload (levelUpsertFromPayload s p) p
          = levelUpsertFromPayload s p)
    ∧ (∀ (s : LimitCacheState) (p : LimitPayload),
        limitUpsertFromPayload (limitUpsertFromPayload s p) p
          = limitUpsertFromPayload s p) := by
  refine ⟨?_, ?_, ?_, ?_, ?_⟩
  · intro s p
    cases hu : (BanEntry.from_payload p).user_id <;>
      cases hg : (BanEntry.from_payload p).group_id <;>
        simp [banUpsertFromPayload, hu, hg, mapInsert_idem]
  · intro s p
    cases hk : groupKey (GroupSnap.from_payload p).group_id
        (GroupSnap.from_payload p).channel_id <;>
      simp [groupUpsertFromPayload, hk, mapInsert_idem, mapErase_idem]
  · intro s p
    by_cases hid : (BotSnap.from_payload p).bot_id = "" <;>
      simp [botUpsertFromPayload, hid, mapInsert_idem, mapErase_idem]
  · intro s p
    cases hk : levelKey (some (LevelSnap.from_payload p).user_id)
        (LevelSnap.from_payload p).group_id <;>
      simp [levelUpsertFromPayload, hk, mapInsert_idem, mapErase_idem]
  · intro s p
    exact limitUpsertEntry_idem s (LimitSnap.from_payload p)

/-! ## Per-stage circuit breakers (`hooks/auth_checker.py`) -/

/-- `CIRCUIT_RESET_TIME` (seconds). -/
def CIRCUIT_RESET_TIME : ℚ := 300

/-- One `CIRCUIT_BREAKERS[name]` record. -/
structure Breaker where
  failures : ℤ
  threshold : ℤ
  active : Bool
  reset_time : ℚ
  deriving DecidableEq

/-- The initial per-stage breaker record
(`{"failures": 0, "threshold": 3, "active": False, "reset_time": 0}`). -/
def breakerInit : Breaker :=
  { failures := 0, threshold := 3, active := false, reset_time := 0 }

/-- The `CIRCUIT_BREAKERS` table: one breaker per pipeline stage name. -/
def circuitBreakersInit : List (String × Breaker) :=
  [("auth_ban", breakerInit), ("auth_bot", breakerInit),
   ("auth_group", breakerInit), ("auth_admin", breakerInit),
   ("auth_plugin", breakerInit), ("auth_limit", breakerInit)]

/-- The `asyncio.TimeoutError` path of `with_timeout` for a stage with a
breaker entry: bump the failure count and, at the threshold, activate the
breaker with `reset_time = now + CIRCUIT_RESET_TIME`. -/
def breakerOnTimeout (b : Breaker) (now : ℚ) : Breaker :=
  let b1 := { b with failures := b.failures + 1 }
  if b1.failures ≥ b1.threshold ∧ ¬b1.active then
    { b1 with active := true, reset_time := now + CIRCUIT_RESET_TIME }
  else b1

/-- `check_circuit_breaker`: auto-reset an active breaker whose cool-down
elapsed, then report whether it is (still) active. -/
def checkCircuitBreaker (b : Breaker) (now : ℚ) : Breaker × Bool :=
  let b1 :=
    if b.active ∧ b.reset_time < now then
      { b with active := false, failures := 0 }
    else b
  (b1, b1.active)

/-- Observable outcome of one `time_hook` call for a stage. -/
inductive HookCall
  | skipped
  | completed
  | timedOut
  deriving DecidableEq

/-- `time_hook`: consult the breaker; when open, skip the stage without
attempting it; otherwise run the stage under `with_timeout`
(`timesOut` says whether this particular call exceeds its deadline). -/
def timeHook (b : Breaker) (now : ℚ) (timesOut : Bool) : Breaker × HookCall :=
  let r := checkCircuitBreaker b now
  if r.2 then (r.1, HookCall.skipped)
  else if timesOut then (breakerOnTimeout r.1 now, HookCall.timedOut)
  else (r.1, HookCall.completed)

/-- Fold a sequence of `(instant, timesOut)` stage calls through the
breaker. -/
def runHooks (b : Breaker) : List (ℚ × Bool) → Breaker × List HookCall
  | [] => (b, [])
  | (t, x) :: rest =>
    let r := timeHook b t x
    let rr := runHooks r.1 rest
    (rr.1, r.2 :: rr.2)

/-- C5 counterexample: starting from a fresh breaker, three timeouts (at
t = 0, 1, 2) open it with `reset_time = 302`; at t = 100 the call is
skipped; after the cool-down the call at t = 400 is attempted and times
out, yet the very next call at t = 401 is attempted as well (not
skipped), and the breaker is fully reset (inactive, failure count
restarted) — so more than one call is allowed through after the
cool-down, refuting "exactly one probe call is allowed through". -/
theorem circuit_breaker_no_single_probe :
    (runHooks breakerInit [(0, true), (1, true), (2, true)]).1
      = { failures := 3, threshold := 3, active := true, reset_time := 302 }
    ∧ (timeHook (runHooks breakerInit [(0, true), (1, true), (2, true)]).1
        100 true).2 = HookCall.skipped
    ∧ (timeHook (runHooks breakerInit [(0, true), (1, true), (2, true)]).1
        400 true).2 = HookCall.timedOut
    ∧ (timeHook (timeHook (runHooks breakerInit
          [(0, true), (1, true), (2, true)]).1 400 true).1 401 true).2
        = HookCall.timedOut
    ∧ (timeHook (runHooks breakerInit [(0, true), (1, true), (2, true)]).1
        400 true).1.active = false := by
  norm_num [runHooks, timeHook, checkCircuitBreaker, breakerOnTimeout,
    breakerInit, CIRCUIT_RESET_TIME]

/-- C5 (amended): every pipeline stage name starts with a closed breaker of
threshold 3; three consecutive timeouts open the breaker for
`CIRCUIT_RESET_TIME = 300` seconds from the third timeout; while it is
open and the cool-down has not elapsed every call to that stage is
skipped (not attempted); once the cool-down elapses the breaker resets
fully (inactive, failure count zero) and calls are attempted again — even
if the first post-cool-down call times out, the next call is still
attempted, until the threshold of timeouts accumulates anew. -/
theorem circuit_breaker_open_skip_reset
    (b : Breaker) (t1 t2 t3 t u : ℚ) (x : Bool) :
    (∀ name brk, mapLookup circuitBreakersInit name = some brk →
      brk = breakerInit ∧ brk.threshold = 3 ∧ brk.active = false)
    ∧ ((runHooks breakerInit [(t1, true), (t2, true), (t3, true)]).1
      = { failures := 3, threshold := 3, active := true,
          reset_time := t3 + CIRCUIT_RESET_TIME })
    ∧ (b.active = true → t ≤ b.reset_time →
        timeHook b t x = (b, HookCall.skipped))
    ∧ (b.active = true → b.reset_time < t →
        (timeHook b t x).2 ≠ HookCall.skipped
        ∧ (x = false →
            (timeHook b t x).1
              = { b with active := false, failures := 0 }))
    ∧ (b.active = true → b.reset_time < t → b.threshold = 3 →
        (timeHook (timeHook b t true).1 u x).2 ≠ HookCall.skipped) := by
  refine ⟨?_, ?_, ?_, ?_, ?_⟩
  · intro name brk h
    simp only [circuitBreakersInit, mapLookup] at h
    split_ifs at h <;> simp_all [breakerInit] <;>
      exact ⟨by rw [← h], by rw [← h]⟩
  · norm_num [runHooks, timeHook, checkCircuitBreaker, breakerOnTimeout,
      breakerInit]
  · intro hact ht
    simp [timeHook, checkCircuitBreaker, hact, not_lt.mpr ht]
  · intro hact ht
    constructor
    · cases x <;>
        simp [timeHook, checkCircuitBreaker, hact, ht, breakerOnTimeout]
    · intro hx
      subst hx
      simp [timeHook, checkCircuitBreaker, hact, ht]
  · intro hact ht hth
    have h1 : (timeHook b t true).1
        = { b with active := false, failures := 1 } := by
      simp [timeHook, checkCircuitBreaker, hact, ht, breakerOnTimeout, hth]
    rw [h1]
    cases x <;> simp [timeHook, checkCircuitBreaker]

def c5openBreaker : Breaker :=
  { failures := 3, threshold := 3, active := true, reset_time := 302 }

theorem circuit_breaker_open_skip_reset_witness :
    timeHook c5openBreaker 100 true = (c5openBreaker, HookCall.skipped)
    ∧ (timeHook c5openBreaker 400 true).2 ≠ HookCall.skipped :=
  ⟨(circuit_breaker_open_skip_reset c5openBreaker
      0 1 2 100 401 true).2.2.1 rfl (by norm_num [c5openBreaker]),
   ((circuit_breaker_open_skip_reset c5openBreaker
      0 1 2 400 401 true).2.2.2.1 rfl (by norm_num [c5openBreaker])).1⟩

/-! ## Overload signalling (`services/message_load.py`) and the deferred
auth queue (`hooks/auth_hook.py`) -/

/-- `_AUTH_QUEUE_MAXSIZE`. -/
def AUTH_QUEUE_MAXSIZE : ℕ := 200

/-- `_AUTH_QUEUE_HIGH_WATER`. -/
def AUTH_QUEUE_HIGH_WATER : ℕ := 160

/-- `_AUTH_OVERLOAD_WINDOW` (seconds). -/
def AUTH_OVERLOAD_WINDOW : ℚ := 5

/-- `signal_overload`: extend `_OVERLOAD_UNTIL` to `now + duration` when
that lies further in the future. -/
def signalOverload (st : ℚ) (now dur : ℚ) : ℚ :=
  if dur ≤ 0 then st
  else if st < now + dur then now + dur else st

/-- `is_overloaded`: the flag reads true strictly before `_OVERLOAD_UNTIL`. -/
def isOverloaded (st : ℚ) (now : ℚ) : Bool := now < st

/-- Outcome of the enqueue step at the end of `_auth_preprocessor`. -/
structure EnqueueResult (α : Type) where
  queue : List α
  overloadUntil : ℚ
  dropped : Bool

/-- The enqueue step of `_auth_preprocessor`: `put_nowait` raises
`QueueFull` when the queue is at capacity, in which case the event is
dropped (never evaluated) and the overload window is signalled; a
successful put at or above the high-water mark also signals the window. -/
def authEnqueue {α : Type} (q : List α) (st : ℚ) (now : ℚ) (item : α) :
    EnqueueResult α :=
  if AUTH_QUEUE_MAXSIZE ≤ q.length then
    { queue := q, overloadUntil := signalOverload st now AUTH_OVERLOAD_WINDOW,
      dropped := true }
  else
    let q2 := q ++ [item]
    if AUTH_QUEUE_HIGH_WATER ≤ q2.length then
      { queue := q2,
        overloadUntil := signalOverload st now AUTH_OVERLOAD_WINDOW,
        dropped := false }
    else { queue := q2, overloadUntil := st, dropped := false }

/-- C6: when the deferred auth queue is at capacity a new event is dropped
without being enqueued for evaluation and the overload window is
signalled for `AUTH_OVERLOAD_WINDOW = 5` seconds; `is_overloaded` reads
true exactly until the latest signalled window end (`signal_overload`
keeps the maximum of the window ends), so if no later window is active
the flag reads true throughout `[now, now + 5)` and false from
`now + 5` on. -/
theorem auth_queue_overflow_signals_overload {α : Type}
    (q : List α) (st now : ℚ) (item : α)
    (hfull : q.length = AUTH_QUEUE_MAXSIZE)
    (hst : st ≤ now + AUTH_OVERLOAD_WINDOW) :
    (authEnqueue q st now item).dropped = true
    ∧ (authEnqueue q st now item).queue = q
    ∧ (authEnqueue q st now item).overloadUntil = now + AUTH_OVERLOAD_WINDOW
    ∧ (∀ t, now ≤ t → t < now + AUTH_OVERLOAD_WINDOW →
        isOverloaded (authEnqueue q st now item).overloadUntil t = true)
    ∧ (∀ t, now + AUTH_OVERLOAD_WINDOW ≤ t →
        isOverloaded (authEnqueue q st now item).overloadUntil t = false)
    ∧ (∀ st2 now2 dur, 0 < dur →
        signalOverload st2 now2 dur = max st2 (now2 + dur))
    ∧ (∀ st2 t, isOverloaded st2 t = true ↔ t < st2) := by
  have hcap : AUTH_QUEUE_MAXSIZE ≤ q.length := le_of_eq hfull.symm
  have hwin : (0 : ℚ) < AUTH_OVERLOAD_WINDOW := by norm_num [AUTH_OVERLOAD_WINDOW]
  have huntil : (authEnqueue q st now item).overloadUntil
      = now + AUTH_OVERLOAD_WINDOW := by
    rcases lt_or_eq_of_le hst with h | h
    · simp [authEnqueue, hcap, signalOverload, not_le.mpr hwin, h]
    · simp [authEnqueue, hcap, signalOverload, not_le.mpr hwin, h]
  refine ⟨by simp [authEnqueue, hcap], by simp [authEnqueue, hcap], huntil,
    ?_, ?_, ?_, ?_⟩
  · intro t _ ht2
    simp [isOverloaded, huntil, ht2]
  · intro t ht
    simp [isOverloaded, huntil, not_lt.mpr ht]
  · intro st2 now2 dur hdur
    rcases le_or_lt (now2 + dur) st2 with h | h
    · simp [signalOverload, not_le.mpr hdur, not_lt.mpr h, max_eq_left h]
    · simp [signalOverload, not_le.mpr hdur, h, max_eq_right (le_of_lt h)]
  · intro st2 t
    simp [isOverloaded]

theorem auth_queue_overflow_signals_overload_witness :
    (authEnqueue (List.replicate 200 0) 0 (10 : ℚ) 1).dropped = true
    ∧ isOverloaded
        (authEnqueue (List.replicate 200 0) 0 (10 : ℚ) 1).overloadUntil 12
        = true
    ∧ isOverloaded
        (authEnqueue (List.replicate 200 0) 0 (10 : ℚ) 1).overloadUntil 15
        = false :=
  ⟨(auth_queue_overflow_signals_overload (List.replicate 200 0) 0 10 1
      (by rw [List.length_replicate]; rfl) (by norm_num [AUTH_OVERLOAD_WINDOW])).1,
   (auth_queue_overflow_signals_overload (List.replicate 200 0) 0 10 1
      (by rw [List.length_replicate]; rfl) (by norm_num [AUTH_OVERLOAD_WINDOW])).2.2.2.1
     12 (by norm_num) (by norm_num [AUTH_OVERLOAD_WINDOW]),
   (auth_queue_overflow_signals_overload (List.replicate 200 0) 0 10 1
      (by rw [List.length_replicate]; rfl) (by norm_num [AUTH_OVERLOAD_WINDOW])).2.2.2.2.1
     15 (by norm_num [AUTH_OVERLOAD_WINDOW])⟩

/-! ## The rate-limit stage (`hooks/auth/auth_limit.py`, `LimitManager.__check`) -/

/-- The key the limiter is consulted with: the user id, or
`channel_id or group_id` when the event carries a group id and the rule's
watch scope is GROUP. -/
def limitKey (watch : LimitWatch) (user_id : String)
    (group_id channel_id : Option String) : String :=
  if optStrTruthy group_id ∧ watch = LimitWatch.GROUP then
    if optStrTruthy channel_id then channel_id.getD ""
    else group_id.getD ""
  else user_id

/-- Observable outcome of one `LimitManager.__check` call. -/
structure LimitCheckOutcome where
  is_limit : Bool
  key : String
  denied : Bool
  committed : Bool
  deriving DecidableEq

/-- `LimitManager.__check`: the limiter internals
(`zhenxun/utils/limiters.py`) are outside the embedded corpus, so the
limiter is abstracted as the key-indexed predicate `limiterCheck` (the
value of `limiter.check(key)`); `committed` covers the `start_cd` /
`set_true` / `increase` call performed in the non-denying branch.  The
source computes
`is_limit = (LimitWatchType.ALL or (group_id and watch == GROUP) or
(not group_id and watch == USER))`, whose value is the always-truthy
constant member `LimitWatchType.ALL`. -/
def limitStageCheck (watch : LimitWatch) (limiterCheck : String → Bool)
    (user_id : String) (group_id channel_id : Option String) :
    LimitCheckOutcome :=
  let is_limit := LimitWatch.ALL.pyTruthy
    || (optStrTruthy group_id && decide (watch = LimitWatch.GROUP))
    || (!optStrTruthy group_id && decide (watch = LimitWatch.USER))
  let key := limitKey watch user_id group_id channel_id
  if is_limit && !limiterCheck key then
    { is_limit := is_limit, key := key, denied := true, committed := false }
  else
    { is_limit := is_limit, key := key, denied := false, committed := true }

/-- The rate-limit stage as the claim (and the spec's intended semantics)
describes it: a rule is enforced — limiter consulted and committed — only
when its watch scope matches the event (GROUP scope only for events
carrying a group id, USER scope only for events without one). -/
def limitStageCheckIntended (watch : LimitWatch) (limiterCheck : String → Bool)
    (user_id : String) (group_id channel_id : Option String) :
    LimitCheckOutcome :=
  let is_limit := (optStrTruthy group_id && decide (watch = LimitWatch.GROUP))
    || (!optStrTruthy group_id && decide (watch = LimitWatch.USER))
  let key := limitKey watch user_id group_id channel_id
  if is_limit then
    if limiterCheck key then
      { is_limit := is_limit, key := key, denied := false, committed := true }
    else
      { is_limit := is_limit, key := key, denied := true, committed := false }
  else
    { is_limit := is_limit, key := key, denied := false, committed := false }

/-- C4: the scope filter is inoperative in the source.  For a rule with
GROUP watch scope and an event without a group id (where the claim says
the rule must not be enforced), the source still computes
`is_limit = true`, consults the limiter under the user key, denies the
event when the limiter is saturated and commits the limiter otherwise;
the intended semantics would leave the event untouched.  The key clause
of the claim does hold: the key is the user id here, and the channel or
group id under GROUP scope with a group present. -/
theorem limit_scope_filter_inoperative :
    limitStageCheck LimitWatch.GROUP (fun _ => false) "u1" none none
      = { is_limit := true, key := "u1", denied := true, committed := false }
    ∧ limitStageCheck LimitWatch.GROUP (fun _ => true) "u1" none none
      = { is_limit := true, key := "u1", denied := false, committed := true }
    ∧ limitStageCheckIntended LimitWatch.GROUP (fun _ => false) "u1" none none
      = { is_limit := false, key := "u1", denied := false, committed := false }
    ∧ (∀ (lc : String → Bool) (u : String),
        limitKey LimitWatch.GROUP u (some "g1") (some "ch1") = "ch1"
        ∧ limitKey LimitWatch.GROUP u (some "g1") none = "g1"
        ∧ limitKey LimitWatch.USER u (some "g1") (some "ch1") = u
        ∧ (limitStageCheck LimitWatch.GROUP lc u none none).key = u) := by
  refine ⟨by decide, by decide, by decide, ?_⟩
  intro lc u
  refine ⟨by simp [limitKey, optStrTruthy], by simp [limitKey, optStrTruthy],
    by simp [limitKey], ?_⟩
  by_cases h : lc u <;>
    simp [limitStageCheck, limitKey, LimitWatch.pyTruthy, optStrTruthy, h]

/-! ## `AuthService.init` and `AuthStateCache` (`services/auth_service/`) -/

/-- Number of positional parameters (after `cls`) accepted by
`AuthStateCache.update_group_rule`: `group_id`, `level`, `status`,
`disabled_plugins`, `superuser_disabled_plugins`. -/
def updateGroupRuleParamCount : ℕ := 5

/-- Number of positional arguments passed to `update_group_rule` by
`AuthService.init` for each stored group: `group_id`, `level`, `status`,
`disabled`, `su_disabled`, `disabled_tasks`, `su_disabled_tasks`. -/
def initGroupRuleArgCount : ℕ := 7

/-- Number of positional parameters (after `cls`) accepted by
`AuthStateCache.update_bot_rule`: `bot_id`, `status`,
`disabled_plugins`. -/
def updateBotRuleParamCount : ℕ := 3

/-- Number of positional arguments passed to `update_bot_rule` by
`AuthService.init` for each stored bot: `bot_id`, `status`, `disabled`,
`disabled_tasks`. -/
def initBotRuleArgCount : ℕ := 4

/-- A Python positional call is well-formed only when it passes no more
positional arguments than the callee declares (every parameter here has a
default, so fewer is fine); otherwise the call raises `TypeError`. -/
def pyCallOk (paramCount argCount : ℕ) : Bool := argCount ≤ paramCount

/-- A stored `BanConsole` row as read by `AuthService.init`. -/
structure StoredBan where
  user_id : Option String
  group_id : Option String
  ban_time : ℤ
  duration : ℤ
  deriving DecidableEq

/-- A stored `GroupConsole` row as read by `AuthService.init`. -/
structure StoredGroup where
  group_id : String
  level : ℤ
  status : Bool
  block_plugin : String
  superuser_block_plugin : String
  block_task : String
  superuser_block_task : String
  deriving DecidableEq

/-- A stored `BotConsole` row as read by `AuthService.init`. -/
structure StoredBot where
  bot_id : String
  status : Bool
  block_plugins : String
  block_tasks : String
  deriving DecidableEq

/-- The slice of `AuthStateCache` that `AuthService.init` populates. -/
structure AuthStateCacheState where
  banned_users : List (String × ℚ)
  banned_groups : List (String × ℚ)
  group_rules : ℕ
  bot_rules : ℕ
  deriving DecidableEq

/-- Ban processing in `AuthService.init`:
`expire_time = -1 if duration == -1 else ban_time + duration`, then
`set_user_ban` when the row has a user id and `set_group_ban` when it has
a group id. -/
def initApplyBan (st : AuthStateCacheState) (ban : StoredBan) :
    AuthStateCacheState :=
  let expire : ℚ :=
    if ban.duration = -1 then -1 else ((ban.ban_time + ban.duration : ℤ) : ℚ)
  let st1 :=
    match ban.user_id with
    | some u =>
      if u ≠ "" then
        { st with banned_users := mapInsert st.banned_users u expire }
      else st
    | none => st
  match ban.group_id with
  | some g =>
    if g ≠ "" then
      { st1 with banned_groups := mapInsert st1.banned_groups g expire }
    else st1
  | none => st1

/-- `AuthService.init` restricted to the stored entities whose processing
the claim is about: bans are loaded into the ban maps, then for each
stored group `update_group_rule` is invoked with
`initGroupRuleArgCount` positional arguments, and for each stored bot
`update_bot_rule` with `initBotRuleArgCount`; a call with more positional
arguments than the callee accepts raises `TypeError`, which propagates
out of `init`. -/
def authServiceInit (bans : List StoredBan) (groups : List StoredGroup)
    (bots : List StoredBot) : Except String AuthStateCacheState := do
  let st0 := bans.foldl initApplyBan
    { banned_users := [], banned_groups := [], group_rules := 0,
      bot_rules := 0 }
  let st1 ← groups.foldlM
    (fun (st : AuthStateCacheState) (_g : StoredGroup) =>
      if pyCallOk updateGroupRuleParamCount initGroupRuleArgCount then
        Except.ok { st with group_rules := st.group_rules + 1 }
      else
        Except.error
          "TypeError: update_group_rule() takes at most 5 positional arguments but 7 were given")
    st0
  let st2 ← bots.foldlM
    (fun (st : AuthStateCacheState) (_b : StoredBot) =>
      if pyCallOk updateBotRuleParamCount initBotRuleArgCount then
        Except.ok { st with bot_rules := st.bot_rules + 1 }
      else
        Except.error
          "TypeError: update_bot_rule() takes at most 3 positional arguments but 4 were given")
    st1
  pure st2

def c10group : StoredGroup :=
  { group_id := "123", level := 5, status := true, block_plugin := "",
    superuser_block_plugin := "", block_task := "",
    superuser_block_task := "" }

def c10bot : StoredBot :=
  { bot_id := "b123", status := true, block_plugins := "",
    block_tasks := "" }

/-- C10: `AuthService.init` passes 7 positional arguments to
`AuthStateCache.update_group_rule`, which accepts at most 5, and 4 to
`update_bot_rule`, which accepts at most 3, so on any stored state with
at least one group (or one bot) `init` raises `TypeError` instead of
completing; with no stored groups and bots the group/bot loops are vacuous
and `init` completes. -/
theorem auth_service_init_group_call_ill_formed :
    pyCallOk updateGroupRuleParamCount initGroupRuleArgCount = false
    ∧ pyCallOk updateBotRuleParamCount initBotRuleArgCount = false
    ∧ authServiceInit [] [c10group] []
      = Except.error
          "TypeError: update_group_rule() takes at most 5 positional arguments but 7 were given"
    ∧ authServiceInit [] [] [c10bot]
      = Except.error
          "TypeError: update_bot_rule() takes at most 3 positional arguments but 4 were given"
    ∧ (∀ bans : List StoredBan, ∃ st, authServiceInit bans [] [] = Except.ok st) := by
  refine ⟨by decide, by decide, by rfl, by rfl, ?_⟩
  intro bans
  exact ⟨_, rfl⟩

/-! ## The policy evaluation pipeline (`hooks/auth_checker.py` `auth` and the
stage modules under `hooks/auth/`)

The pipeline is embedded for a fresh event (its event-scoped cache entry
starts empty, which is the state of every first evaluation), with no stage
timeouts and all circuit breakers closed; the `asyncio.gather` over the
independent stage coroutines is sequentialized in task-list order, which
is observationally faithful whenever at most one stage denies. -/

/-- Modelled from the spec / usage sites: the plugin classification enum
(`zhenxun/utils/enum.py` is not part of the embedded corpus); the members
referenced by the embedded sources are HIDDEN, ADMIN, SUPERUSER and
SUPER_AND_ADMIN, with NORMAL for ordinary plugins. -/
inductive PluginType
  | NORMAL
  | ADMIN
  | SUPERUSER
  | SUPER_AND_ADMIN
  | HIDDEN
  deriving DecidableEq

/-- Modelled from the spec / usage sites: the plugin block-scope enum
(`zhenxun/utils/enum.py` is not part of the embedded corpus). -/
inductive BlockType
  | ALL
  | GROUP
  | PRIVATE
  deriving DecidableEq

/-- The slice of `PluginInfo` read by the embedded pipeline. -/
structure PluginInfoM where
  module : String
  name : String
  plugin_type : PluginType
  status : Bool
  block_type : Option BlockType
  admin_level : Option ℤ
  cost_gold : ℤ
  level : ℤ
  limit_superuser : Bool
  deriving DecidableEq

/-- Python truthiness of `plugin.admin_level` (`None` and `0` are falsy). -/
def adminLevelTruthy (p : PluginInfoM) : Bool :=
  match p.admin_level with
  | none => false
  | some n => n ≠ 0

/-- The exceptions a stage can raise
(`hooks/auth/exception.py`, outside the corpus but fixed by its use
sites): `SkipPluginException` denies, `IsSuperuserException` and
`PermissionExemption` end the evaluation as allowed. -/
inductive AuthExc
  | skip (reason : String)
  | isSuper
  | exemption (reason : String)
  deriving DecidableEq

/-- The observable verdict of one `auth` evaluation: the caller sees either
normal completion (the handler may run), an `IgnoredException` (the event
is silently dropped for this handler), or an unhandled Python error. -/
inductive Verdict
  | allowed
  | ignored (reason : String)
  | pyError (message : String)
  deriving DecidableEq

/-- Sequence a stage result into the rest of the evaluation, with the
exception handling of `auth`: `SkipPluginException` sets the ignore flag,
`IsSuperuserException` and `PermissionExemption` end as allowed. -/
def runStage (r : Except AuthExc Unit) (k : Unit → Verdict) : Verdict :=
  match r with
  | Except.ok _ => k ()
  | Except.error (AuthExc.skip reason) => Verdict.ignored reason
  | Except.error AuthExc.isSuper => Verdict.allowed
  | Except.error (AuthExc.exemption _) => Verdict.allowed

/-- `auth_group` (`hooks/auth/auth_group.py`): blacklist check, sleep-mode
check against the literal wake command (`SwitchEnum.ENABLE`), then the
group-level requirement. -/
def authGroupStage (plugin : PluginInfoM) (group : Option GroupSnap)
    (text : String) (group_id : Option String) : Except AuthExc Unit :=
  if ¬optStrTruthy group_id then Except.ok ()
  else
    match group with
    | none => Except.error (AuthExc.skip "群组信息不存在...")
    | some g =>
      if g.level < 0 then
        Except.error (AuthExc.skip "群组黑名单, 目标群组群权限权限-1...")
      else if pyStrip text ≠ "醒来" ∧ g.status = false then
        Except.error (AuthExc.skip "群组休眠状态...")
      else if plugin.level > g.level then
        Except.error (AuthExc.skip "群等级限制...")
      else Except.ok ()

/-- `auth_bot` (`hooks/auth/auth_bot.py`) with the bot snapshot already
fetched (`skip_fetch=True` on the event-cached path): deny when the bot
is absent or disabled, or when `"<module,"` occurs in its blocked-plugin
string. -/
def authBotStage (plugin : PluginInfoM) (bot : Option BotSnap) :
    Except AuthExc Unit :=
  match bot with
  | none => Except.error (AuthExc.skip "Bot不存在或休眠中阻断权限检测...")
  | some b =>
    if b.status = false then
      Except.error (AuthExc.skip "Bot不存在或休眠中阻断权限检测...")
    else if strHasSub b.block_plugins ("<" ++ plugin.module ++ ",") then
      Except.error (AuthExc.skip "Bot插件权限检查结果为关闭...")
    else Except.ok ()

/-- `auth_admin` (`hooks/auth/auth_admin.py`) with cached levels:
`max(global, group)` must reach the plugin's required level in group
context, the global level alone in private context. -/
def authAdminStage (plugin : PluginInfoM) (group_id : Option String)
    (levels : Option LevelSnap × Option LevelSnap) : Except AuthExc Unit :=
  if ¬adminLevelTruthy plugin then Except.ok ()
  else
    let required := (plugin.admin_level).getD 0
    let global_user := levels.1
    let group_users := levels.2
    let user_level :=
      match global_user with
      | some gu => gu.user_level
      | none => 0
    if optStrTruthy group_id ∧ group_users.isSome then
      match group_users with
      | some grp =>
        if max user_level grp.user_level < required then
          Except.error (AuthExc.skip "管理员权限不足...")
        else Except.ok ()
      | none => Except.ok ()
    else
      match global_user with
      | some gu =>
        if gu.user_level < required then
          Except.error (AuthExc.skip "管理员权限不足...")
        else Except.ok ()
      | none => Except.ok ()

/-- `_group_has_plugin_block` for snapshots (the derived sets are present;
an empty set is falsy). -/
def groupHasPluginBlock (group : Option GroupSnap) (module : String) : Bool :=
  match group with
  | none => false
  | some g =>
    (g.block_plugin_set ≠ [] && module ∈ g.block_plugin_set)
      || (g.superuser_block_plugin_set ≠ []
            && module ∈ g.superuser_block_plugin_set)

/-- `_needs_auth_plugin` from `auth_checker.py`. -/
def needsAuthPlugin (p : PluginInfoM) (group : Option GroupSnap)
    (group_id : Option String) : Bool :=
  if p.block_type = some BlockType.ALL ∧ p.status = false then
    match group with
    | some g => !g.is_super
    | none => true
  else if optStrTruthy group_id then
    if p.block_type = some BlockType.GROUP then true
    else groupHasPluginBlock group p.module
  else decide (p.block_type = some BlockType.PRIVATE)

/-- `PluginCheck.check_global` from `auth_plugin.py`. -/
def pluginCheckGlobal (plugin : PluginInfoM) (group : Option GroupSnap) :
    Except AuthExc Unit :=
  if plugin.status ∨ plugin.block_type ≠ some BlockType.ALL then Except.ok ()
  else
    match group with
    | some g =>
      if g.is_super then Except.error AuthExc.isSuper
      else Except.error (AuthExc.skip "全局未开启此功能...")
    | none => Except.error (AuthExc.skip "全局未开启此功能...")

/-- `auth_plugin` (`hooks/auth/auth_plugin.py`): group block checks (with
the early return when nothing can block), the group-scope block, the
private-scope block, then the global state. -/
def authPluginStage (plugin : PluginInfoM) (group : Option GroupSnap)
    (skip_group_block : Bool) : Except AuthExc Unit :=
  match group with
  | some g =>
    if plugin.status ∧ plugin.block_type ≠ some BlockType.GROUP
        ∧ g.block_plugin_set = [] ∧ g.superuser_block_plugin_set = [] then
      Except.ok ()
    else if ¬skip_group_block ∧ plugin.module ∈ g.superuser_block_plugin_set then
      Except.error (AuthExc.skip "超级管理员禁用了该群此功能...")
    else if ¬skip_group_block ∧ plugin.module ∈ g.block_plugin_set then
      Except.error (AuthExc.skip "未开启此功能...")
    else if plugin.block_type = some BlockType.GROUP then
      Except.error (AuthExc.skip "该插件在群组中已被禁用...")
    else pluginCheckGlobal plugin (some g)
  | none =>
    if plugin.block_type = some BlockType.PRIVATE then
      Except.error (AuthExc.skip "该插件在私聊中已被禁用...")
    else pluginCheckGlobal plugin none

/-- `auth_ban` (`hooks/auth/auth_ban.py`): early return for hidden plugins,
unnamed matchers and superusers; then the group ban check and the user
ban check (`user_handle`, which may also send the templated reply). -/
def authBanStage (hidden : Bool) (module : String) (superuser : Bool)
    (user_id : String) (group_id : Option String) (pluginPresent : Bool)
    (banResult : String) (freqOk : Bool) (s : BanCacheState) (now : ℚ) :
    Except AuthExc Unit :=
  if hidden then Except.ok ()
  else if module = "" then Except.ok ()
  else if superuser then Except.ok ()
  else
    let groupBanned :=
      match group_id with
      | some g => g ≠ "" && is_ban s none (some g) now ≠ 0
      | none => false
    if groupBanned then Except.error (AuthExc.skip "群组处于黑名单中...")
    else if user_id ≠ "" then
      if (user_handle pluginPresent banResult freqOk s user_id group_id
          now).raised then
        Except.error (AuthExc.skip "用户处于黑名单中...")
      else Except.ok ()
    else Except.ok ()

/-- `_needs_admin_check` from `auth_checker.py`. -/
def needsAdminCheck (p : PluginInfoM) : Bool :=
  (match p.admin_level with
   | some n => decide (0 < n)
   | none => false)
  || decide (p.plugin_type = PluginType.ADMIN)
  || decide (p.plugin_type = PluginType.SUPERUSER)
  || decide (p.plugin_type = PluginType.SUPER_AND_ADMIN)

/-- All the per-event inputs of one fresh `auth` evaluation. -/
structure AuthInput where
  module : String
  hidden : Bool
  superuser : Bool
  user_id : String
  group_id : Option String
  channel_id : Option String
  text : String
  routeSkip : Bool
  plugin : Option PluginInfoM
  userGold : Option ℤ
  botData : Option BotSnap
  group : Option GroupSnap
  levels : Option LevelSnap × Option LevelSnap
  hasLimits : Bool
  limitDeny : Option String
  botFilterDeny : Bool
  banState : BanCacheState
  banResult : String
  freqOk : Bool
  now : ℚ

/-- The admin pre-check block of `auth`: superuser-gated plugin types are
resolved first (a superuser passes; a non-superuser on a SUPERUSER plugin
is denied), then `auth_admin` runs with the cached levels. -/
def adminPreStage (p : PluginInfoM) (i : AuthInput) : Except AuthExc Unit :=
  if needsAdminCheck p then
    if p.plugin_type = PluginType.SUPERUSER
        ∨ p.plugin_type = PluginType.SUPER_AND_ADMIN then
      if i.superuser then Except.ok ()
      else if p.plugin_type = PluginType.SUPERUSER then
        Except.error (AuthExc.skip "超级管理员权限不足...")
      else authAdminStage p i.group_id i.levels
    else authAdminStage p i.group_id i.levels
  else Except.ok ()

/-- The ban stage as invoked by `auth` (the fetched plugin is always
present there). -/
def banStageOf (i : AuthInput) : Except AuthExc Unit :=
  authBanStage i.hidden i.module i.superuser i.user_id i.group_id true
    i.banResult i.freqOk i.banState i.now

/-- The cost stage of `auth` (`get_plugin_cost` with the fetched user):
`auth_cost` denies on insufficient gold; a superuser is then exempted
unless the plugin limits superusers; with no user row the attribute
access in `auth_cost` raises. -/
def costStage (p : PluginInfoM) (i : AuthInput) (k : Unit → Verdict) :
    Verdict :=
  if 0 < p.cost_gold then
    match i.userGold with
    | none => Verdict.pyError "AttributeError: user is None in auth_cost"
    | some gold =>
      if gold < p.cost_gold then Verdict.ignored "金币限制..."
      else if i.superuser
          ∧ (p.plugin_type = PluginType.SUPERUSER ∨ ¬p.limit_superuser) then
        Verdict.allowed
      else k ()
  else k ()

/-- The gathered hook tasks of `auth`, in task-list order: `auth_bot`,
`auth_group` (skipped for superusers), the gather-stage `auth_admin`
(which only runs when the admin level is truthy but the pre-check did not
run), `auth_plugin` (skipped for superusers and when
`_needs_auth_plugin` is false), and `auth_limit` (when the module has
limit rules; its limiters live outside the corpus, so its deny outcome is
the input `limitDeny`). -/
def gatherHooks (p : PluginInfoM) (i : AuthInput) : Verdict :=
  runStage (authBotStage p i.botData) (fun _ =>
  runStage (if i.superuser then Except.ok ()
    else authGroupStage p i.group i.text i.group_id) (fun _ =>
  runStage (if adminLevelTruthy p ∧ ¬needsAdminCheck p then
      authAdminStage p i.group_id i.levels
    else Except.ok ()) (fun _ =>
  runStage (if ¬i.superuser ∧ needsAuthPlugin p i.group i.group_id then
      authPluginStage p i.group false
    else Except.ok ()) (fun _ =>
  runStage (if i.hasLimits then
      match i.limitDeny with
      | some r => Except.error (AuthExc.skip r)
      | none => Except.ok ()
    else Except.ok ()) (fun _ =>
  Verdict.allowed)))))

/-- One fresh `auth` evaluation (`hooks/auth_checker.py`): exemptions for
unnamed and hidden matchers, the route pre-check short-circuit, plugin
lookup, the admin pre-check, the ban stage, the cost stage, `bot_filter`
(source outside the corpus, abstracted as its deny outcome), then the
gathered hooks. -/
def authFresh (i : AuthInput) : Verdict :=
  if i.module = "" then Verdict.allowed
  else if i.hidden then Verdict.allowed
  else if i.routeSkip then Verdict.allowed
  else
    match i.plugin with
    | none => Verdict.allowed
    | some p =>
      if p.plugin_type = PluginType.HIDDEN then Verdict.allowed
      else
        runStage (adminPreStage p i) (fun _ =>
        runStage (banStageOf i) (fun _ =>
        costStage p i (fun _ =>
        if i.botFilterDeny then Verdict.ignored "bot_filter deny"
        else gatherHooks p i)))

def c8plugin : PluginInfoM :=
  { module := "sign_in", name := "sign", plugin_type := PluginType.NORMAL,
    status := true, block_type := none, admin_level := none, cost_gold := 0,
    level := 5, limit_superuser := false }

def c8group : GroupSnap :=
  { group_id := "g8", channel_id := none, group_name := "",
    max_member_count := 0, member_count := 0, status := true, level := -1,
    is_super := false, group_flag := 0, block_plugin := "",
    superuser_block_plugin := "", block_task := "",
    superuser_block_task := "", platform := none, block_plugin_set := [],
    superuser_block_plugin_set := [], block_task_set := [],
    superuser_block_task_set := [] }

def c8bot : BotSnap :=
  { bot_id := "b1", status := true, platform := none, block_plugins := "",
    block_tasks := "", available_plugins := "", available_tasks := "" }

def c8banState : BanCacheState :=
  { by_user := [], by_group := [], by_user_group := [], negative := [],
    loaded := true }

def c8input : AuthInput :=
  { module := "sign_in", hidden := false, superuser := true,
    user_id := "su1", group_id := some "g8", channel_id := none,
    text := "hello", routeSkip := false, plugin := some c8plugin,
    userGold := none, botData := some c8bot, group := some c8group,
    levels := (none, none), hasLimits := false, limitDeny := none,
    botFilterDeny := false, banState := c8banState, banResult := "",
    freqOk := false, now := 0 }

/-- C8 counterexample: an event in a blacklisted group (cached snapshot
level = −1) whose acting user is a superuser completes the full pipeline
as allowed — `auth` never adds the group stage for superusers — so the
evaluation does not end in a deny with the blacklist reason, refuting
"regardless of the acting user's state". -/
theorem group_blacklist_bypassed_by_superuser :
    c8group.level < 0
    ∧ c8input.group = some c8group
    ∧ authFresh c8input = Verdict.allowed := by
  refine ⟨by decide, rfl, by decide⟩

/-- C8 (amended): whenever the evaluation reaches the group stage — the
acting user is not a superuser and the stages before it pass — a cached
group snapshot with level < 0 makes the pipeline end in the blacklist
deny, regardless of the plugin's state, the group's sleep status and the
message text; at the stage itself the blacklist check precedes every
plugin-dependent check. -/
theorem group_blacklist_denies_when_stage_reached :
    (∀ (plugin : PluginInfoM) (g : GroupSnap) (text : String) (gid : String),
      gid ≠ "" → g.level < 0 →
      authGroupStage plugin (some g) text (some gid)
        = Except.error (AuthExc.skip "群组黑名单, 目标群组群权限权限-1..."))
    ∧ (∀ (i : AuthInput) (p : PluginInfoM) (g : GroupSnap) (gid : String),
      i.superuser = false →
      i.module ≠ "" →
      i.hidden = false →
      i.routeSkip = false →
      i.plugin = some p →
      p.plugin_type ≠ PluginType.HIDDEN →
      adminPreStage p i = Except.ok () →
      banStageOf i = Except.ok () →
      ¬0 < p.cost_gold →
      i.botFilterDeny = false →
      authBotStage p i.botData = Except.ok () →
      i.group_id = some gid →
      gid ≠ "" →
      i.group = some g →
      g.level < 0 →
      authFresh i = Verdict.ignored "群组黑名单, 目标群组群权限权限-1...") := by
  have hstage : ∀ (plugin : PluginInfoM) (g : GroupSnap) (text : String)
      (gid : String), gid ≠ "" → g.level < 0 →
      authGroupStage plugin (some g) text (some gid)
        = Except.error (AuthExc.skip "群组黑名单, 目标群组群权限权限-1...") := by
    intro plugin g text gid hgid hlevel
    simp [authGroupStage, optStrTruthy, hgid, hlevel]
  refine ⟨hstage, ?_⟩
  intro i p g gid hsu hmod hhid hroute hp hptype hpre hban hcost hbf hbot
    hgid hgidne hgrp hlevel
  have hg := hstage p g i.text gid hgidne hlevel
  simp [authFresh, hmod, hhid, hroute, hp, hptype, hpre, hban, runStage,
    costStage, hcost, hbf, gatherHooks, hbot, hsu, hgid, hgrp, hg]

def c8inputNS : AuthInput :=
  { c8input with superuser := false, user_id := "u8" }

theorem group_blacklist_denies_when_stage_reached_witness :
    authFresh c8inputNS
      = Verdict.ignored "群组黑名单, 目标群组群权限权限-1..." :=
  group_blacklist_denies_when_stage_reached.2 c8inputNS c8plugin c8group "g8"
    rfl (by decide) rfl rfl rfl (by decide) rfl rfl
    (by decide) rfl rfl rfl (by decide) rfl (by decide)
